import Mathlib

/-!
Verification development for the Ethereum transaction-pool JSON-RPC client
facade (`client/rpc/eth.go`).

The Go file is a flat list of facade methods on `publicTransactionPool`
(single field `client *rpc.Client`).  Every method body has the identical
shape

  var r T
  err := pub.client.CallContext(ctx, &r, method, args...)
  if err != nil { return <zero>, err }
  return r, nil

We embed this shallowly:

* `Jval` is the JSON value carried by the wire.
* `Arg` is a Go value handed positionally to `CallContext`; the transport
  marshals it, so we keep the typed Go value itself.
* A method body is a `Prog` value: exactly the `CallContext` invocations the
  body performs, each carrying the context, the literal method-name string
  and the ordered argument list, with the rest of the body as the
  continuation of the response.  `run` executes a body against a transport
  (the external `rpc.Client`, modelled as a function), `calls` lists the
  invocations the body performs against that transport.
* Decoding a response into the Go result holder follows the semantics of
  `encoding/json` together with the go-ethereum `hexutil`/`common` wire
  types used by the struct fields (external collaborators of this
  repository): a JSON `null` stored into a pointer field yields a nil
  pointer; `null` fed to the custom unmarshaler of a non-pointer
  `common.Hash`, `common.Address`, `hexutil.Bytes`, `hexutil.Uint`,
  `hexutil.Uint64` or `hexutil.Big` value is a decode error, because those
  unmarshalers demand a quoted hex string.  Decode failures surface as
  errors of the call, exactly as `CallContext` reports them.

Go nilable values are modelled with `Option`: a nil pointer, nil slice or
nil map is `none`.  Machine integers and `big.Int` magnitudes are `Nat`
(the hex wire encoding only carries magnitudes; the decoders enforce the
64-bit / 256-bit digit limits that `hexutil` enforces).  `context.Context`
is opaque to this code and is modelled as an abstract token passed through
to the transport untouched.
-/

/-- Stand-in for `context.Context`: the facade only forwards it to the
transport, so any token type serves. -/
abbrev Ctx := Nat

/-- Errors reported by the transport collaborator: network failures,
JSON-RPC error objects, and decode mismatches. -/
inductive Err where
  | network : String → Err
  | rpcErr : Int → String → Err
  | decodeFail : String → Err
deriving DecidableEq

/-- JSON values as carried by the wire. -/
inductive Jval where
  | null : Jval
  | bool : Bool → Jval
  | num : Int → Jval
  | str : String → Jval
  | arr : List Jval → Jval
  | obj : List (String × Jval) → Jval

/-- `SendTxArgs` represents the arguments to submit a new transaction into
the transaction pool (Go struct `SendTxArgs`).  Addresses are 20-byte
lists; `hexutil.Big` magnitudes are `Nat`. -/
structure SendTxArgs where
  From : List Nat
  To : List Nat
  Gas : Nat
  GasPrice : Nat
  Value : Nat
  Data : List Nat
  Nonce : Nat
deriving DecidableEq

/-- A Go value handed positionally to `CallContext`; the transport owns its
marshaling, so the embedding keeps the typed value. -/
inductive Arg where
  | str : String → Arg
  | uint : Nat → Arg
  | hash : List Nat → Arg
  | addr : List Nat → Arg
  | bytes : List Nat → Arg
  | big : Nat → Arg
  | sendTx : SendTxArgs → Arg
deriving DecidableEq

/-- The transport collaborator (`rpc.Client`): invoke a named remote
procedure with ordered arguments under a context; report the raw JSON
result or a failure. -/
def Transport := Ctx → String → List Arg → Except Err Jval

/-- A facade method body: the sequence of `CallContext` invocations it
performs, each with its context, literal method name and ordered argument
list, and the continuation on the response. -/
inductive Prog (α : Type) where
  | call : Ctx → String → List Arg → (Except Err Jval → Prog α) → Prog α
  | ret : α → Prog α

/-- Execute a method body against a transport. -/
def run {α : Type} (t : Transport) : Prog α → α
  | Prog.ret a => a
  | Prog.call ctx m args k => run t (k (t ctx m args))

/-- The invocations of the transport call primitive a method body performs,
in order: context, method name, positional arguments. -/
def calls {α : Type} (t : Transport) : Prog α → List (Ctx × String × List Arg)
  | Prog.ret _ => []
  | Prog.call ctx m args k => (ctx, m, args) :: calls t (k (t ctx m args))

/-- The lowercase hex alphabet indexed by nibble, as the wire encoding
uses (`hexutil` writes through this table). -/
def hexAlphabet : List Char := "0123456789abcdef".data

/-- Hex digit character of a nibble. -/
def hexChar (n : Nat) : Char := hexAlphabet.getD n '0'

/-- Value of a hex digit character by code-point range arithmetic, both
cases accepted, exactly as go-ethereum's nibble decoder works. -/
def hexVal (c : Char) : Option Nat :=
  if 48 ≤ c.toNat ∧ c.toNat ≤ 57 then some (c.toNat - 48)
  else if 97 ≤ c.toNat ∧ c.toNat ≤ 102 then some (c.toNat - 97 + 10)
  else if 65 ≤ c.toNat ∧ c.toNat ≤ 70 then some (c.toNat - 65 + 10)
  else none

/-- Two lowercase hex characters per byte, in order. -/
def bytesToHexChars : List Nat → List Char
  | [] => []
  | b :: bs => hexChar (b / 16) :: hexChar (b % 16) :: bytesToHexChars bs

/-- Decode pairs of hex characters into bytes; odd length fails. -/
def pairsToBytes : List Char → Option (List Nat)
  | [] => some []
  | c1 :: c2 :: rest =>
    match hexVal c1, hexVal c2, pairsToBytes rest with
    | some hi, some lo, some bs => some ((16 * hi + lo) :: bs)
    | _, _, _ => none
  | [_] => none

/-- The `0x`-prefixed lowercase hex encoding of a byte sequence
(`hexutil.Bytes.MarshalText` and the fixed-length `common` types). -/
def encodeBytesHex (bs : List Nat) : String :=
  String.mk ('0' :: 'x' :: bytesToHexChars bs)

/-- Parse a `0x`-prefixed hex string into bytes (fails without the prefix
or on a non-hex or odd-length digit run). -/
def parseHexBytes (s : String) : Option (List Nat) :=
  match s.data with
  | '0' :: 'x' :: ds => pairsToBytes ds
  | _ => none

/-- Accumulate hex digits into a number. -/
def foldHexDigits (acc : Nat) : List Char → Option Nat
  | [] => some acc
  | c :: cs =>
    match hexVal c with
    | some v => foldHexDigits (16 * acc + v) cs
    | none => none

/-- Parse a `0x`-prefixed hex number as `hexutil` does: prefix mandatory,
at least one digit, no leading zero, at most `maxDigits` digits (16 for the
64-bit `hexutil.Uint`/`Uint64`, 64 for the 256-bit `hexutil.Big`). -/
def parseHexNum (maxDigits : Nat) (s : String) : Option Nat :=
  match s.data with
  | '0' :: 'x' :: ds =>
    if ds.length = 0 then none
    else if maxDigits < ds.length then none
    else if 1 < ds.length ∧ ds.head? = some '0' then none
    else foldHexDigits 0 ds
  | _ => none

/-- Minimal hex digits of a number, most significant first (`fuel` bounds
the recursion and is always taken to be the number itself). -/
def natToHexAux : Nat → Nat → List Char → List Char
  | 0, _, acc => acc
  | _ + 1, 0, acc => acc
  | fuel + 1, n, acc => natToHexAux fuel (n / 16) (hexChar (n % 16) :: acc)

/-- The `0x`-prefixed minimal hex encoding of a magnitude
(`hexutil.EncodeBig` / `hexutil.Uint64.MarshalText`; zero is `0x0`). -/
def encodeUintHex (n : Nat) : String :=
  if n = 0 then "0x0" else String.mk ('0' :: 'x' :: natToHexAux n n [])

/-- `RPCTransaction` represents a transaction that will serialize to the
RPC representation of a transaction (Go struct `RPCTransaction`).  Pointer
fields (`*hexutil.Big`, `*common.Address`) are `Option`; the non-pointer
`BlockHash`, `From`, `Hash` (`common.Hash`/`common.Address` values) are
plain byte lists; the non-pointer `Input` (`hexutil.Bytes` slice) is
`Option` with `none` for the nil slice. -/
structure RPCTransaction where
  BlockHash : List Nat
  BlockNumber : Option Nat
  From : List Nat
  Gas : Option Nat
  GasPrice : Option Nat
  Hash : List Nat
  Input : Option (List Nat)
  Nonce : Nat
  To : Option (List Nat)
  TransactionIndex : Nat
  Value : Option Nat
  V : Option Nat
  R : Option Nat
  S : Option Nat
deriving DecidableEq

/-- `SignTransactionResult` represents a RLP encoded signed transaction
(Go struct `SignTransactionResult`).  The `Tx *types.Transaction` field is
an external go-ethereum type no claim inspects; its wire JSON is kept
verbatim (`Jval.null` for the nil pointer). -/
structure SignTransactionResult where
  Raw : Option (List Nat)
  Tx : Jval

/-- First binding of a key in a JSON object body. -/
def jlookup : List (String × Jval) → String → Option Jval
  | [], _ => none
  | (k, v) :: rest, key => if k = key then some v else jlookup rest key

/-- Field of a JSON object value, if the value is an object. -/
def jfield (j : Jval) (key : String) : Option Jval :=
  match j with
  | Jval.obj kvs => jlookup kvs key
  | _ => none

/-- Decode one struct field as `encoding/json` does: a missing key leaves
the Go zero value, a present key runs the field decoder. -/
def decodeField {α : Type} (kvs : List (String × Jval)) (key : String)
    (dec : Jval → Except Err α) (dflt : α) : Except Err α :=
  match jlookup kvs key with
  | none => Except.ok dflt
  | some j => dec j

/-- Decode into a non-pointer `common.Hash`: its unmarshaler demands a
quoted 32-byte hex string; JSON `null` is handed to it and rejected. -/
def decodeHashJ : Jval → Except Err (List Nat)
  | Jval.str s =>
    match parseHexBytes s with
    | some bs =>
      if bs.length = 32 then Except.ok bs
      else Except.error (Err.decodeFail ("common.Hash: wrong length"))
    | none => Except.error (Err.decodeFail ("common.Hash: invalid hex"))
  | _ => Except.error (Err.decodeFail ("common.Hash: non-string value"))

/-- Decode into a non-pointer `common.Address` (20-byte hex string). -/
def decodeAddressJ : Jval → Except Err (List Nat)
  | Jval.str s =>
    match parseHexBytes s with
    | some bs =>
      if bs.length = 20 then Except.ok bs
      else Except.error (Err.decodeFail ("common.Address: wrong length"))
    | none => Except.error (Err.decodeFail ("common.Address: invalid hex"))
  | _ => Except.error (Err.decodeFail ("common.Address: non-string value"))

/-- Decode into `hexutil.Bytes`: a quoted even-length hex string; `null`
is handed to its unmarshaler and rejected. -/
def decodeBytesJ : Jval → Except Err (List Nat)
  | Jval.str s =>
    match parseHexBytes s with
    | some bs => Except.ok bs
    | none => Except.error (Err.decodeFail ("hexutil.Bytes: invalid hex"))
  | _ => Except.error (Err.decodeFail ("hexutil.Bytes: non-string value"))

/-- Decode into a `hexutil.Bytes` result holder: success always yields a
non-nil slice. -/
def decodeBytesResJ (j : Jval) : Except Err (Option (List Nat)) :=
  (decodeBytesJ j).map some

/-- Decode into a `*hexutil.Uint` holder: JSON `null` yields the nil
pointer; otherwise a 64-bit hex number is demanded. -/
def decodePtrUintJ : Jval → Except Err (Option Nat)
  | Jval.null => Except.ok none
  | Jval.str s =>
    match parseHexNum 16 s with
    | some n => Except.ok (some n)
    | none => Except.error (Err.decodeFail ("hexutil.Uint: invalid hex number"))
  | _ => Except.error (Err.decodeFail ("hexutil.Uint: non-string value"))

/-- Decode into a `*hexutil.Uint64` holder. -/
def decodePtrUint64J : Jval → Except Err (Option Nat)
  | Jval.null => Except.ok none
  | Jval.str s =>
    match parseHexNum 16 s with
    | some n => Except.ok (some n)
    | none => Except.error (Err.decodeFail ("hexutil.Uint64: invalid hex number"))
  | _ => Except.error (Err.decodeFail ("hexutil.Uint64: non-string value"))

/-- Decode into a non-pointer `hexutil.Uint64` field. -/
def decodeUint64J : Jval → Except Err Nat
  | Jval.str s =>
    match parseHexNum 16 s with
    | some n => Except.ok n
    | none => Except.error (Err.decodeFail ("hexutil.Uint64: invalid hex number"))
  | _ => Except.error (Err.decodeFail ("hexutil.Uint64: non-string value"))

/-- Decode into a non-pointer `hexutil.Uint` field. -/
def decodeUintJ : Jval → Except Err Nat
  | Jval.str s =>
    match parseHexNum 16 s with
    | some n => Except.ok n
    | none => Except.error (Err.decodeFail ("hexutil.Uint: invalid hex number"))
  | _ => Except.error (Err.decodeFail ("hexutil.Uint: non-string value"))

/-- Decode into a `*hexutil.Big` field: `null` yields the nil pointer;
otherwise a hex number of at most 256 bits. -/
def decodeOptBigJ : Jval → Except Err (Option Nat)
  | Jval.null => Except.ok none
  | Jval.str s =>
    match parseHexNum 64 s with
    | some n => Except.ok (some n)
    | none => Except.error (Err.decodeFail ("hexutil.Big: invalid hex number"))
  | _ => Except.error (Err.decodeFail ("hexutil.Big: non-string value"))

/-- Decode into a `*common.Address` field: `null` yields the nil pointer. -/
def decodeOptAddressJ : Jval → Except Err (Option (List Nat))
  | Jval.null => Except.ok none
  | j => (decodeAddressJ j).map some

/-- Decode into a non-pointer `hexutil.Bytes` field: success is non-nil. -/
def decodeBytesFieldJ (j : Jval) : Except Err (Option (List Nat)) :=
  (decodeBytesJ j).map some

/-- Decode a JSON object into `RPCTransaction`, field by field with a Go
zero value for each missing key. -/
def decodeRPCTransactionJ : Jval → Except Err RPCTransaction
  | Jval.obj kvs => do
    let blockHash ← decodeField kvs ("blockHash") decodeHashJ (List.replicate 32 0)
    let blockNumber ← decodeField kvs ("blockNumber") decodeOptBigJ none
    let sender ← decodeField kvs ("from") decodeAddressJ (List.replicate 20 0)
    let gas ← decodeField kvs ("gas") decodeOptBigJ none
    let gasPrice ← decodeField kvs ("gasPrice") decodeOptBigJ none
    let hash ← decodeField kvs ("hash") decodeHashJ (List.replicate 32 0)
    let input ← decodeField kvs ("input") decodeBytesFieldJ none
    let nonce ← decodeField kvs ("nonce") decodeUint64J 0
    let toAddr ← decodeField kvs ("to") decodeOptAddressJ none
    let transactionIndex ← decodeField kvs ("transactionIndex") decodeUintJ 0
    let value ← decodeField kvs ("value") decodeOptBigJ none
    let v ← decodeField kvs ("v") decodeOptBigJ none
    let r ← decodeField kvs ("r") decodeOptBigJ none
    let s ← decodeField kvs ("s") decodeOptBigJ none
    pure { BlockHash := blockHash, BlockNumber := blockNumber, From := sender,
           Gas := gas, GasPrice := gasPrice, Hash := hash, Input := input,
           Nonce := nonce, To := toAddr, TransactionIndex := transactionIndex,
           Value := value, V := v, R := r, S := s }
  | _ => Except.error (Err.decodeFail ("RPCTransaction: non-object value"))

/-- Decode into a `*RPCTransaction` holder: `null` is the nil pointer. -/
def decodePtrRPCTransactionJ : Jval → Except Err (Option RPCTransaction)
  | Jval.null => Except.ok none
  | j => (decodeRPCTransactionJ j).map some

/-- Decode a list of `*RPCTransaction` elements. -/
def decodeTxList : List Jval → Except Err (List (Option RPCTransaction))
  | [] => Except.ok []
  | j :: js => do
    let x ← decodePtrRPCTransactionJ j
    let xs ← decodeTxList js
    pure (x :: xs)

/-- Decode into a `[]*RPCTransaction` holder: `null` is the nil slice, an
array is a non-nil slice. -/
def decodeRPCTxSliceJ : Jval → Except Err (Option (List (Option RPCTransaction)))
  | Jval.null => Except.ok none
  | Jval.arr js => (decodeTxList js).map some
  | _ => Except.error (Err.decodeFail ("slice of RPCTransaction: non-array value"))

/-- Decode into a `map[string]interface` holder: `null` is the nil map, an
object is kept as generic JSON bindings. -/
def decodeMapJ : Jval → Except Err (Option (List (String × Jval)))
  | Jval.null => Except.ok none
  | Jval.obj kvs => Except.ok (some kvs)
  | _ => Except.error (Err.decodeFail ("map: non-object value"))

/-- Decode a JSON object into `SignTransactionResult`. -/
def decodeSignTransactionResultJ : Jval → Except Err SignTransactionResult
  | Jval.obj kvs => do
    let raw ← decodeField kvs ("raw") decodeBytesFieldJ none
    pure { Raw := raw, Tx := (jlookup kvs ("tx")).getD Jval.null }
  | _ => Except.error (Err.decodeFail ("SignTransactionResult: non-object value"))

/-- Decode into a `*SignTransactionResult` holder. -/
def decodePtrSignTxResultJ : Jval → Except Err (Option SignTransactionResult)
  | Jval.null => Except.ok none
  | j => (decodeSignTransactionResultJ j).map some

/-- Encode a `*hexutil.Big` field: the nil pointer marshals as `null`. -/
def encodeOptBig : Option Nat → Jval
  | none => Jval.null
  | some n => Jval.str (encodeUintHex n)

/-- Encode a `*common.Address` field: the nil pointer marshals as `null`. -/
def encodeOptAddress : Option (List Nat) → Jval
  | none => Jval.null
  | some a => Jval.str (encodeBytesHex a)

/-- Serialize an `RPCTransaction` to its RPC JSON representation, fields
in struct order with their Go json tags.  The non-pointer `BlockHash`
always marshals as a hex string (the zero value as sixty-four zeros),
never as `null`. -/
def encodeRPCTransactionJ (tx : RPCTransaction) : Jval :=
  Jval.obj [
    ("blockHash", Jval.str (encodeBytesHex tx.BlockHash)),
    ("blockNumber", encodeOptBig tx.BlockNumber),
    ("from", Jval.str (encodeBytesHex tx.From)),
    ("gas", encodeOptBig tx.Gas),
    ("gasPrice", encodeOptBig tx.GasPrice),
    ("hash", Jval.str (encodeBytesHex tx.Hash)),
    ("input", Jval.str (encodeBytesHex (tx.Input.getD []))),
    ("nonce", Jval.str (encodeUintHex tx.Nonce)),
    ("to", encodeOptAddress tx.To),
    ("transactionIndex", Jval.str (encodeUintHex tx.TransactionIndex)),
    ("value", encodeOptBig tx.Value),
    ("v", encodeOptBig tx.V),
    ("r", encodeOptBig tx.R),
    ("s", encodeOptBig tx.S)]

/-- The shared body shape of every facade method: construct the result
holder (`onFail` is its Go zero value, also what the error branch
returns), invoke `CallContext` with the literal method name and the
ordered argument list, propagate a failure unchanged next to the untouched
holder, otherwise return the decoded holder next to a nil error. -/
def rpcOp {α : Type} (ctx : Ctx) (dec : Jval → Except Err α) (onFail : α)
    (method : String) (args : List Arg) : Prog (α × Option Err) :=
  Prog.call ctx method args fun resp =>
    match resp with
    | Except.error e => Prog.ret (onFail, some e)
    | Except.ok j =>
      match dec j with
      | Except.error e => Prog.ret (onFail, some e)
      | Except.ok r => Prog.ret (r, none)

/-- The zero value of a `common.Hash` result holder. -/
def hashZero : List Nat := List.replicate 32 0

namespace EthBody

/-- GetBlockTransactionCountByNumber returns the number of transactions in
the block with the given block number. -/
def GetBlockTransactionCountByNumber (ctx : Ctx) (blockNr : String) :
    Prog (Option Nat × Option Err) :=
  rpcOp ctx decodePtrUintJ none ("eth_getBlockTransactionCountByNumber")
    [Arg.str blockNr]

/-- GetBlockTransactionCountByHash returns the number of transactions in
the block with the given hash. -/
def GetBlockTransactionCountByHash (ctx : Ctx) (blockHash : List Nat) :
    Prog (Option Nat × Option Err) :=
  rpcOp ctx decodePtrUintJ none ("eth_getBlockTransactionCountByHash")
    [Arg.hash blockHash]

/-- GetTransactionByBlockNumberAndIndex returns the transaction for the
given block number and index. -/
def GetTransactionByBlockNumberAndIndex (ctx : Ctx) (blockNr : String) (index : Nat) :
    Prog (Option RPCTransaction × Option Err) :=
  rpcOp ctx decodePtrRPCTransactionJ none ("eth_getTransactionByBlockNumberAndIndex")
    [Arg.str blockNr, Arg.uint index]

/-- GetTransactionByBlockHashAndIndex returns the transaction for the
given block hash and index.  The method string below is the one the Go
source passes to `CallContext` on this path: the by-block-number name. -/
def GetTransactionByBlockHashAndIndex (ctx : Ctx) (blockHash : List Nat) (index : Nat) :
    Prog (Option RPCTransaction × Option Err) :=
  rpcOp ctx decodePtrRPCTransactionJ none ("eth_getTransactionByBlockNumberAndIndex")
    [Arg.hash blockHash, Arg.uint index]

/-- GetRawTransactionByBlockNumberAndIndex returns the bytes of the
transaction for the given block number and index. -/
def GetRawTransactionByBlockNumberAndIndex (ctx : Ctx) (blockNr : String) (index : Nat) :
    Prog (Option (List Nat) × Option Err) :=
  rpcOp ctx decodeBytesResJ none ("eth_getRawTransactionByBlockNumberAndIndex")
    [Arg.str blockNr, Arg.uint index]

/-- GetRawTransactionByBlockHashAndIndex returns the bytes of the
transaction for the given block hash and index. -/
def GetRawTransactionByBlockHashAndIndex (ctx : Ctx) (blockHash : List Nat) (index : Nat) :
    Prog (Option (List Nat) × Option Err) :=
  rpcOp ctx decodeBytesResJ none ("eth_getRawTransactionByBlockHashAndIndex")
    [Arg.hash blockHash, Arg.uint index]

/-- GetTransactionCount returns the number of transactions the given
address has sent for the given block number. -/
def GetTransactionCount (ctx : Ctx) (address : List Nat) (blockNr : String) :
    Prog (Option Nat × Option Err) :=
  rpcOp ctx decodePtrUint64J none ("eth_getTransactionCount")
    [Arg.addr address, Arg.str blockNr]

/-- GetTransactionByHash returns the transaction for the given hash. -/
def GetTransactionByHash (ctx : Ctx) (hash : List Nat) :
    Prog (Option RPCTransaction × Option Err) :=
  rpcOp ctx decodePtrRPCTransactionJ none ("eth_getTransactionByHash")
    [Arg.hash hash]

/-- GetRawTransactionByHash returns the bytes of the transaction for the
given hash. -/
def GetRawTransactionByHash (ctx : Ctx) (hash : List Nat) :
    Prog (Option (List Nat) × Option Err) :=
  rpcOp ctx decodeBytesResJ none ("eth_getRawTransactionByHash")
    [Arg.hash hash]

/-- GetTransactionReceipt returns the transaction receipt for the given
transaction hash. -/
def GetTransactionReceipt (ctx : Ctx) (hash : List Nat) :
    Prog (Option (List (String × Jval)) × Option Err) :=
  rpcOp ctx decodeMapJ none ("eth_getTransactionReceipt")
    [Arg.hash hash]

/-- SendTransaction creates a transaction for the given argument, sign it
and submit it to the transaction pool. -/
def SendTransaction (ctx : Ctx) (args : SendTxArgs) :
    Prog (List Nat × Option Err) :=
  rpcOp ctx decodeHashJ hashZero ("eth_sendTransaction")
    [Arg.sendTx args]

/-- SendRawTransaction will add the signed transaction to the transaction
pool.  The sender is responsible for signing the transaction and using the
correct nonce. -/
def SendRawTransaction (ctx : Ctx) (encodedTx : List Nat) :
    Prog (List Nat × Option Err) :=
  rpcOp ctx decodeHashJ hashZero ("eth_sendRawTransaction")
    [Arg.bytes encodedTx]

/-- Sign calculates an ECDSA signature over the node's signed-message
prefix; the account associated with addr must be unlocked.  On failure the
Go body returns a literal nil slice, which coincides with the untouched
zero holder. -/
def Sign (ctx : Ctx) (addr : List Nat) (data : List Nat) :
    Prog (Option (List Nat) × Option Err) :=
  rpcOp ctx decodeBytesResJ none ("eth_sign")
    [Arg.addr addr, Arg.bytes data]

/-- Resend accepts an existing transaction and a new gas price and limit;
the node will remove the given transaction from the pool and reinsert it. -/
def Resend (ctx : Ctx) (sendArgs : SendTxArgs) (gasPrice : Nat) (gasLimit : Nat) :
    Prog (List Nat × Option Err) :=
  rpcOp ctx decodeHashJ hashZero ("eth_resend")
    [Arg.sendTx sendArgs, Arg.big gasPrice, Arg.big gasLimit]

/-- SignTransaction will sign the given transaction with the from account;
the node needs the private key of that account, unlocked. -/
def SignTransaction (ctx : Ctx) (args : SendTxArgs) :
    Prog (Option SignTransactionResult × Option Err) :=
  rpcOp ctx decodePtrSignTxResultJ none ("eth_signTransaction")
    [Arg.sendTx args]

/-- GetRawTransaction returns the bytes of the transaction for the given
hash (extra concrete method, not declared in the interface). -/
def GetRawTransaction (ctx : Ctx) (hash : List Nat) :
    Prog (Option (List Nat) × Option Err) :=
  rpcOp ctx decodeBytesResJ none ("eth_getRawTransactionByHash")
    [Arg.hash hash]

/-- PendingTransactions returns the transactions that are in the
transaction pool with a from address the node manages; no arguments. -/
def PendingTransactions (ctx : Ctx) :
    Prog (Option (List (Option RPCTransaction)) × Option Err) :=
  rpcOp ctx decodeRPCTxSliceJ none ("eth_pendingTransactions")
    []

end EthBody

/-- The facade: its only field is the transport client reference. -/
structure publicTransactionPool where
  client : Transport

/-- NewPublicTransactionPool wraps a transport client. -/
def NewPublicTransactionPool (client : Transport) : publicTransactionPool :=
  { client := client }

def publicTransactionPool.GetBlockTransactionCountByNumber
    (pub : publicTransactionPool) (ctx : Ctx) (blockNr : String) :
    Option Nat × Option Err :=
  run pub.client (EthBody.GetBlockTransactionCountByNumber ctx blockNr)

def publicTransactionPool.GetBlockTransactionCountByHash
    (pub : publicTransactionPool) (ctx : Ctx) (blockHash : List Nat) :
    Option Nat × Option Err :=
  run pub.client (EthBody.GetBlockTransactionCountByHash ctx blockHash)

def publicTransactionPool.GetTransactionByBlockNumberAndIndex
    (pub : publicTransactionPool) (ctx : Ctx) (blockNr : String) (index : Nat) :
    Option RPCTransaction × Option Err :=
  run pub.client (EthBody.GetTransactionByBlockNumberAndIndex ctx blockNr index)

def publicTransactionPool.GetTransactionByBlockHashAndIndex
    (pub : publicTransactionPool) (ctx : Ctx) (blockHash : List Nat) (index : Nat) :
    Option RPCTransaction × Option Err :=
  run pub.client (EthBody.GetTransactionByBlockHashAndIndex ctx blockHash index)

def publicTransactionPool.GetRawTransactionByBlockNumberAndIndex
    (pub : publicTransactionPool) (ctx : Ctx) (blockNr : String) (index : Nat) :
    Option (List Nat) × Option Err :=
  run pub.client (EthBody.GetRawTransactionByBlockNumberAndIndex ctx blockNr index)

def publicTransactionPool.GetRawTransactionByBlockHashAndIndex
    (pub : publicTransactionPool) (ctx : Ctx) (blockHash : List Nat) (index : Nat) :
    Option (List Nat) × Option Err :=
  run pub.client (EthBody.GetRawTransactionByBlockHashAndIndex ctx blockHash index)

def publicTransactionPool.GetTransactionCount
    (pub : publicTransactionPool) (ctx : Ctx) (address : List Nat) (blockNr : String) :
    Option Nat × Option Err :=
  run pub.client (EthBody.GetTransactionCount ctx address blockNr)

def publicTransactionPool.GetTransactionByHash
    (pub : publicTransactionPool) (ctx : Ctx) (hash : List Nat) :
    Option RPCTransaction × Option Err :=
  run pub.client (EthBody.GetTransactionByHash ctx hash)

def publicTransactionPool.GetRawTransactionByHash
    (pub : publicTransactionPool) (ctx : Ctx) (hash : List Nat) :
    Option (List Nat) × Option Err :=
  run pub.client (EthBody.GetRawTransactionByHash ctx hash)

def publicTransactionPool.GetTransactionReceipt
    (pub : publicTransactionPool) (ctx : Ctx) (hash : List Nat) :
    Option (List (String × Jval)) × Option Err :=
  run pub.client (EthBody.GetTransactionReceipt ctx hash)

def publicTransactionPool.SendTransaction
    (pub : publicTransactionPool) (ctx : Ctx) (args : SendTxArgs) :
    List Nat × Option Err :=
  run pub.client (EthBody.SendTransaction ctx args)

def publicTransactionPool.SendRawTransaction
    (pub : publicTransactionPool) (ctx : Ctx) (encodedTx : List Nat) :
    List Nat × Option Err :=
  run pub.client (EthBody.SendRawTransaction ctx encodedTx)

def publicTransactionPool.Sign
    (pub : publicTransactionPool) (ctx : Ctx) (addr : List Nat) (data : List Nat) :
    Option (List Nat) × Option Err :=
  run pub.client (EthBody.Sign ctx addr data)

def publicTransactionPool.Resend
    (pub : publicTransactionPool) (ctx : Ctx) (sendArgs : SendTxArgs)
    (gasPrice : Nat) (gasLimit : Nat) :
    List Nat × Option Err :=
  run pub.client (EthBody.Resend ctx sendArgs gasPrice gasLimit)

def publicTransactionPool.SignTransaction
    (pub : publicTransactionPool) (ctx : Ctx) (args : SendTxArgs) :
    Option SignTransactionResult × Option Err :=
  run pub.client (EthBody.SignTransaction ctx args)

def publicTransactionPool.GetRawTransaction
    (pub : publicTransactionPool) (ctx : Ctx) (hash : List Nat) :
    Option (List Nat) × Option Err :=
  run pub.client (EthBody.GetRawTransaction ctx hash)

def publicTransactionPool.PendingTransactions
    (pub : publicTransactionPool) (ctx : Ctx) :
    Option (List (Option RPCTransaction)) × Option Err :=
  run pub.client (EthBody.PendingTransactions ctx)

/-- A JSON-RPC error object as a node reports for a locked account. -/
def eStub : Err := Err.rpcErr (-32000) ("authentication needed: password or unlock")

/-- Transport stub that reports `eStub` for every call. -/
def tFail : Transport := fun _ _ _ => Except.error eStub

/-- Facade over the always-failing stub. -/
def pubFail : publicTransactionPool := NewPublicTransactionPool tFail

/-- Transport stub whose every result is JSON `null`. -/
def tOkNull : Transport := fun _ _ _ => Except.ok Jval.null

/-- Facade over the null-result stub. -/
def pubNull : publicTransactionPool := NewPublicTransactionPool tOkNull

/-- Transport stub whose every result is the empty JSON array. -/
def tEmptyArr : Transport := fun _ _ _ => Except.ok (Jval.arr [])

/-- Facade over the empty-array stub. -/
def pubEmptyArr : publicTransactionPool := NewPublicTransactionPool tEmptyArr

/-- The 32-byte hash whose wire form is `0xaaaa...aa` (64 hex chars). -/
def aaHash : List Nat := List.replicate 32 170

/-- Transport stub whose every result is the wire form of `aaHash`. -/
def tAAHash : Transport := fun _ _ _ => Except.ok (Jval.str (encodeBytesHex aaHash))

/-- Facade over the hash-result stub. -/
def pubAAHash : publicTransactionPool := NewPublicTransactionPool tAAHash

/-- A concrete transaction submission used to exercise the stubs. -/
def stubTxArgs : SendTxArgs :=
  { From := List.replicate 20 1, To := List.replicate 20 2, Gas := 21000,
    GasPrice := 1, Value := 0, Data := [], Nonce := 0 }

/-- The wire JSON of a pending transaction: `blockHash` and `blockNumber`
are `null` (the transaction is not yet mined), the remaining fields are
ordinary hex encodings. -/
def pendingTxWire : Jval :=
  Jval.obj [
    ("blockHash", Jval.null),
    ("blockNumber", Jval.null),
    ("from", Jval.str (encodeBytesHex (List.replicate 20 1))),
    ("gas", Jval.str ("0x5208")),
    ("gasPrice", Jval.str ("0x1")),
    ("hash", Jval.str (encodeBytesHex (List.replicate 32 170))),
    ("input", Jval.str ("0x")),
    ("nonce", Jval.str ("0x0")),
    ("to", Jval.str (encodeBytesHex (List.replicate 20 2))),
    ("transactionIndex", Jval.str ("0x0")),
    ("value", Jval.str ("0x0")),
    ("v", Jval.str ("0x1b")),
    ("r", Jval.str ("0x1")),
    ("s", Jval.str ("0x1"))]

/-- The Go zero value of `RPCTransaction`: the non-pointer `BlockHash` is
the all-zero hash, not an absent value. -/
def zeroRPCTransaction : RPCTransaction :=
  { BlockHash := List.replicate 32 0, BlockNumber := none,
    From := List.replicate 20 0, Gas := none, GasPrice := none,
    Hash := List.replicate 32 0, Input := none, Nonce := 0, To := none,
    TransactionIndex := 0, Value := none, V := none, R := none, S := none }

/-- A transport failure propagates through the shared body shape: the
result is the untouched zero holder next to the very error. -/
theorem run_rpcOp_fail {α : Type} {t : Transport} {ctx : Ctx} {m : String}
    {args : List Arg} {e : Err} (dec : Jval → Except Err α) (onFail : α)
    (h : t ctx m args = Except.error e) :
    run t (rpcOp ctx dec onFail m args) = (onFail, some e) := by
  simp [rpcOp, run, h]

/-- A successful call whose result decodes yields the decoded holder and a
nil error. -/
theorem run_rpcOp_ok {α : Type} {t : Transport} {ctx : Ctx} {m : String}
    {args : List Arg} {j : Jval} {r : α} (dec : Jval → Except Err α) (onFail : α)
    (h : t ctx m args = Except.ok j) (hd : dec j = Except.ok r) :
    run t (rpcOp ctx dec onFail m args) = (r, none) := by
  simp [rpcOp, run, h, hd]

/-- The shared body shape performs exactly one transport invocation, with
its context, method name and argument list, whatever the transport does. -/
theorem calls_rpcOp {α : Type} (t : Transport) (ctx : Ctx)
    (dec : Jval → Except Err α) (onFail : α) (m : String) (args : List Arg) :
    calls t (rpcOp ctx dec onFail m args) = [(ctx, m, args)] := by
  simp only [rpcOp, calls]
  cases t ctx m args with
  | error e => simp [calls]
  | ok j => cases hd : dec j <;> simp [hd, calls]

/-- The hex digit of a nibble reads back as the nibble. -/
theorem hexVal_hexChar : ∀ n, n < 16 → hexVal (hexChar n) = some n := by decide

/-- Hex-encoding a byte sequence and reading the digit pairs back is the
identity on genuine bytes. -/
theorem pairsToBytes_bytesToHexChars (bs : List Nat) (h : ∀ b ∈ bs, b < 256) :
    pairsToBytes (bytesToHexChars bs) = some bs := by
  induction bs with
  | nil => rfl
  | cons b rest ih =>
    have hb : b < 256 := h b (by simp)
    have h1 : hexVal (hexChar (b / 16)) = some (b / 16) :=
      hexVal_hexChar _ (by omega)
    have h2 : hexVal (hexChar (b % 16)) = some (b % 16) :=
      hexVal_hexChar _ (by omega)
    have ih2 := ih (fun x hx => h x (by simp [hx]))
    simp [bytesToHexChars, pairsToBytes, h1, h2, ih2]
    omega

/-- Decoding the wire form of a 32-byte hash recovers exactly its bytes. -/
theorem decodeHashJ_encodeBytesHex (bs : List Nat) (hlen : bs.length = 32)
    (h : ∀ b ∈ bs, b < 256) :
    decodeHashJ (Jval.str (encodeBytesHex bs)) = Except.ok bs := by
  simp [decodeHashJ, encodeBytesHex, parseHexBytes,
    pairsToBytes_bytesToHexChars bs h, hlen]

/-- C1: the claim says `GetTransactionByBlockHashAndIndex` invokes the
remote procedure literally named `eth_getTransactionByBlockHashAndIndex`.
The source instead passes the by-block-number name to `CallContext`: the
single call this method performs carries
`eth_getTransactionByBlockNumberAndIndex`, which differs from the name the
claim (and the method's own documentation) requires. -/
theorem C1_blockHashAndIndex_invokes_blockNumber_procedure :
    calls tOkNull (EthBody.GetTransactionByBlockHashAndIndex 0 hashZero 0) =
      [(0, "eth_getTransactionByBlockNumberAndIndex",
        [Arg.hash hashZero, Arg.uint 0])] ∧
    ("eth_getTransactionByBlockNumberAndIndex" : String) ≠
      ("eth_getTransactionByBlockHashAndIndex") :=
  ⟨rfl, by decide⟩

/-- C2: the claim says JSON `null` round-trips through every nullable
pointer-like field, block hash included.  The source declares `BlockHash`
as a non-pointer `common.Hash`, so a pending transaction's `blockHash:
null` makes decoding fail outright, and on encoding the `blockHash` field
is always a hex string — the zero value serializes as sixty-four zeros,
never as `null`. -/
theorem C2_blockHash_null_does_not_round_trip :
    decodeRPCTransactionJ pendingTxWire =
      Except.error (Err.decodeFail ("common.Hash: non-string value")) ∧
    (∀ tx : RPCTransaction,
      jfield (encodeRPCTransactionJ tx) ("blockHash") =
        some (Jval.str (encodeBytesHex tx.BlockHash))) ∧
    jfield (encodeRPCTransactionJ zeroRPCTransaction) ("blockHash") =
      some (Jval.str ("0x0000000000000000000000000000000000000000000000000000000000000000")) :=
  ⟨rfl, fun _ => rfl, rfl⟩

/-- C4: when the transport returns JSON `null` for a block-transaction
count, the operation returns the nil optional — no zero count, no error. -/
theorem C4_null_count_is_no_count (pub : publicTransactionPool) (ctx : Ctx)
    (blockNr : String)
    (h : pub.client ctx ("eth_getBlockTransactionCountByNumber")
      [Arg.str blockNr] = Except.ok Jval.null) :
    pub.GetBlockTransactionCountByNumber ctx blockNr = (none, none) :=
  run_rpcOp_ok _ _ h rfl

/-- C4 witness: a stub answering `null` for the `"pending"` tag yields the
no-count result. -/
theorem C4_null_count_is_no_count_w :
    pubNull.GetBlockTransactionCountByNumber 0 ("pending") = (none, none) :=
  C4_null_count_is_no_count pubNull 0 ("pending") rfl

/-- C6: when the transport returns an empty JSON array, the
pending-transactions operation returns an empty, non-nil sequence and no
error. -/
theorem C6_empty_array_is_empty_sequence (pub : publicTransactionPool) (ctx : Ctx)
    (h : pub.client ctx ("eth_pendingTransactions") [] =
      Except.ok (Jval.arr [])) :
    pub.PendingTransactions ctx = (some [], none) :=
  run_rpcOp_ok _ _ h rfl

/-- C6 witness: the empty-array stub yields the empty sequence. -/
theorem C6_empty_array_is_empty_sequence_w :
    pubEmptyArr.PendingTransactions 0 = (some [], none) :=
  C6_empty_array_is_empty_sequence pubEmptyArr 0 rfl

/-- C7: when the transport successfully returns the wire form of a 32-byte
transaction hash, `SendRawTransaction` returns exactly those bytes with a
nil error. -/
theorem C7_sendRawTransaction_returns_exact_hash (pub : publicTransactionPool)
    (ctx : Ctx) (encodedTx : List Nat) (bs : List Nat)
    (hlen : bs.length = 32) (hbytes : ∀ b ∈ bs, b < 256)
    (h : pub.client ctx ("eth_sendRawTransaction") [Arg.bytes encodedTx] =
      Except.ok (Jval.str (encodeBytesHex bs))) :
    pub.SendRawTransaction ctx encodedTx = (bs, none) :=
  run_rpcOp_ok _ _ h (decodeHashJ_encodeBytesHex bs hlen hbytes)

/-- C7 witness: the stub answering `0xaa...` (64 hex chars) makes the
operation return the 32 bytes `0xaa`, unmodified. -/
theorem C7_sendRawTransaction_returns_exact_hash_w :
    pubAAHash.SendRawTransaction 0 [1, 2, 3] = (aaHash, none) ∧
    encodeBytesHex aaHash =
      "0xaaaaaaaaaaaaaaaaaaaaaaaaaaaaaaaaaaaaaaaaaaaaaaaaaaaaaaaaaaaaaaaa" :=
  ⟨C7_sendRawTransaction_returns_exact_hash pubAAHash 0 [1, 2, 3] aaHash
    (by decide) (by decide) rfl, rfl⟩

/-- C9: the extra concrete method `GetRawTransaction` is extensionally
equal to `GetRawTransactionByHash`: same single invocation (same procedure
name `eth_getRawTransactionByHash`, same lone hash argument) and identical
results for every facade, context, hash and transport behaviour. -/
theorem C9_getRawTransaction_equals_getRawTransactionByHash :
    ∀ (pub : publicTransactionPool) (ctx : Ctx) (hash : List Nat),
      pub.GetRawTransaction ctx hash = pub.GetRawTransactionByHash ctx hash ∧
      calls pub.client (EthBody.GetRawTransaction ctx hash) =
        calls pub.client (EthBody.GetRawTransactionByHash ctx hash) :=
  fun _ _ _ => ⟨rfl, rfl⟩

/-- C5: every multi-argument operation hands the transport its arguments
positionally in the order of the §4.1 input column: block tag then index,
block hash then index, address then block tag, address then message bytes,
submission then gas price then gas limit. -/
theorem C5_arguments_in_spec_order :
    (∀ (t : Transport) (ctx : Ctx) (blockNr : String) (index : Nat),
      calls t (EthBody.GetTransactionByBlockNumberAndIndex ctx blockNr index) =
        [(ctx, "eth_getTransactionByBlockNumberAndIndex",
          [Arg.str blockNr, Arg.uint index])]) ∧
    (∀ (t : Transport) (ctx : Ctx) (blockHash : List Nat) (index : Nat),
      calls t (EthBody.GetTransactionByBlockHashAndIndex ctx blockHash index) =
        [(ctx, "eth_getTransactionByBlockNumberAndIndex",
          [Arg.hash blockHash, Arg.uint index])]) ∧
    (∀ (t : Transport) (ctx : Ctx) (blockNr : String) (index : Nat),
      calls t (EthBody.GetRawTransactionByBlockNumberAndIndex ctx blockNr index) =
        [(ctx, "eth_getRawTransactionByBlockNumberAndIndex",
          [Arg.str blockNr, Arg.uint index])]) ∧
    (∀ (t : Transport) (ctx : Ctx) (blockHash : List Nat) (index : Nat),
      calls t (EthBody.GetRawTransactionByBlockHashAndIndex ctx blockHash index) =
        [(ctx, "eth_getRawTransactionByBlockHashAndIndex",
          [Arg.hash blockHash, Arg.uint index])]) ∧
    (∀ (t : Transport) (ctx : Ctx) (address : List Nat) (blockNr : String),
      calls t (EthBody.GetTransactionCount ctx address blockNr) =
        [(ctx, "eth_getTransactionCount",
          [Arg.addr address, Arg.str blockNr])]) ∧
    (∀ (t : Transport) (ctx : Ctx) (addr : List Nat) (data : List Nat),
      calls t (EthBody.Sign ctx addr data) =
        [(ctx, "eth_sign", [Arg.addr addr, Arg.bytes data])]) ∧
    (∀ (t : Transport) (ctx : Ctx) (sendArgs : SendTxArgs) (gasPrice gasLimit : Nat),
      calls t (EthBody.Resend ctx sendArgs gasPrice gasLimit) =
        [(ctx, "eth_resend",
          [Arg.sendTx sendArgs, Arg.big gasPrice, Arg.big gasLimit])]) :=
  ⟨fun t ctx _ _ => calls_rpcOp t ctx _ _ _ _,
   fun t ctx _ _ => calls_rpcOp t ctx _ _ _ _,
   fun t ctx _ _ => calls_rpcOp t ctx _ _ _ _,
   fun t ctx _ _ => calls_rpcOp t ctx _ _ _ _,
   fun t ctx _ _ => calls_rpcOp t ctx _ _ _ _,
   fun t ctx _ _ => calls_rpcOp t ctx _ _ _ _,
   fun t ctx _ _ _ => calls_rpcOp t ctx _ _ _ _⟩

/-- C8: every facade operation performs exactly one invocation of the
transport call primitive — carrying the caller's context, the literal
method name and the ordered arguments — whatever the transport's
behaviour; the operations are pure functions of the facade's single
`client` field and their inputs, so no other state is read, written or
modified. -/
theorem C8_exactly_one_transport_call :
    (∀ (t : Transport) (ctx : Ctx) (blockNr : String),
      calls t (EthBody.GetBlockTransactionCountByNumber ctx blockNr) =
        [(ctx, "eth_getBlockTransactionCountByNumber", [Arg.str blockNr])]) ∧
    (∀ (t : Transport) (ctx : Ctx) (blockHash : List Nat),
      calls t (EthBody.GetBlockTransactionCountByHash ctx blockHash) =
        [(ctx, "eth_getBlockTransactionCountByHash", [Arg.hash blockHash])]) ∧
    (∀ (t : Transport) (ctx : Ctx) (blockNr : String) (index : Nat),
      (calls t (EthBody.GetTransactionByBlockNumberAndIndex ctx blockNr index)).length = 1) ∧
    (∀ (t : Transport) (ctx : Ctx) (blockHash : List Nat) (index : Nat),
      (calls t (EthBody.GetTransactionByBlockHashAndIndex ctx blockHash index)).length = 1) ∧
    (∀ (t : Transport) (ctx : Ctx) (blockNr : String) (index : Nat),
      (calls t (EthBody.GetRawTransactionByBlockNumberAndIndex ctx blockNr index)).length = 1) ∧
    (∀ (t : Transport) (ctx : Ctx) (blockHash : List Nat) (index : Nat),
      (calls t (EthBody.GetRawTransactionByBlockHashAndIndex ctx blockHash index)).length = 1) ∧
    (∀ (t : Transport) (ctx : Ctx) (address : List Nat) (blockNr : String),
      (calls t (EthBody.GetTransactionCount ctx address blockNr)).length = 1) ∧
    (∀ (t : Transport) (ctx : Ctx) (hash : List Nat),
      calls t (EthBody.GetTransactionByHash ctx hash) =
        [(ctx, "eth_getTransactionByHash", [Arg.hash hash])]) ∧
    (∀ (t : Transport) (ctx : Ctx) (hash : List Nat),
      calls t (EthBody.GetRawTransactionByHash ctx hash) =
        [(ctx, "eth_getRawTransactionByHash", [Arg.hash hash])]) ∧
    (∀ (t : Transport) (ctx : Ctx) (hash : List Nat),
      calls t (EthBody.GetTransactionReceipt ctx hash) =
        [(ctx, "eth_getTransactionReceipt", [Arg.hash hash])]) ∧
    (∀ (t : Transport) (ctx : Ctx) (args : SendTxArgs),
      calls t (EthBody.SendTransaction ctx args) =
        [(ctx, "eth_sendTransaction", [Arg.sendTx args])]) ∧
    (∀ (t : Transport) (ctx : Ctx) (encodedTx : List Nat),
      calls t (EthBody.SendRawTransaction ctx encodedTx) =
        [(ctx, "eth_sendRawTransaction", [Arg.bytes encodedTx])]) ∧
    (∀ (t : Transport) (ctx : Ctx) (addr : List Nat) (data : List Nat),
      (calls t (EthBody.Sign ctx addr data)).length = 1) ∧
    (∀ (t : Transport) (ctx : Ctx) (sendArgs : SendTxArgs) (gasPrice gasLimit : Nat),
      (calls t (EthBody.Resend ctx sendArgs gasPrice gasLimit)).length = 1) ∧
    (∀ (t : Transport) (ctx : Ctx) (args : SendTxArgs),
      calls t (EthBody.SignTransaction ctx args) =
        [(ctx, "eth_signTransaction", [Arg.sendTx args])]) ∧
    (∀ (t : Transport) (ctx : Ctx) (hash : List Nat),
      calls t (EthBody.GetRawTransaction ctx hash) =
        [(ctx, "eth_getRawTransactionByHash", [Arg.hash hash])]) ∧
    (∀ (t : Transport) (ctx : Ctx),
      calls t (EthBody.PendingTransactions ctx) =
        [(ctx, "eth_pendingTransactions", [])]) :=
  ⟨fun t ctx _ => calls_rpcOp t ctx _ _ _ _,
   fun t ctx _ => calls_rpcOp t ctx _ _ _ _,
   fun t ctx _ _ => congrArg List.length (calls_rpcOp t ctx _ _ _ _),
   fun t ctx _ _ => congrArg List.length (calls_rpcOp t ctx _ _ _ _),
   fun t ctx _ _ => congrArg List.length (calls_rpcOp t ctx _ _ _ _),
   fun t ctx _ _ => congrArg List.length (calls_rpcOp t ctx _ _ _ _),
   fun t ctx _ _ => congrArg List.length (calls_rpcOp t ctx _ _ _ _),
   fun t ctx _ => calls_rpcOp t ctx _ _ _ _,
   fun t ctx _ => calls_rpcOp t ctx _ _ _ _,
   fun t ctx _ => calls_rpcOp t ctx _ _ _ _,
   fun t ctx _ => calls_rpcOp t ctx _ _ _ _,
   fun t ctx _ => calls_rpcOp t ctx _ _ _ _,
   fun t ctx _ _ => congrArg List.length (calls_rpcOp t ctx _ _ _ _),
   fun t ctx _ _ _ => congrArg List.length (calls_rpcOp t ctx _ _ _ _),
   fun t ctx _ => calls_rpcOp t ctx _ _ _ _,
   fun t ctx _ => calls_rpcOp t ctx _ _ _ _,
   fun t ctx => calls_rpcOp t ctx _ _ _ _⟩

/-- When a finished operation carries a non-nil error, its value component
is the untouched zero holder, whatever the transport and decoder did. -/
theorem run_rpcOp_err_implies_holder {α : Type} (t : Transport) (ctx : Ctx)
    (dec : Jval → Except Err α) (onFail : α) (m : String) (args : List Arg)
    (e : Err) (h : (run t (rpcOp ctx dec onFail m args)).2 = some e) :
    (run t (rpcOp ctx dec onFail m args)).1 = onFail := by
  cases ht : t ctx m args with
  | error e2 => simp [rpcOp, run, ht]
  | ok j =>
    cases hd : dec j with
    | error e2 => simp [rpcOp, run, ht, hd]
    | ok r => simp [rpcOp, run, ht, hd] at h

/-- C3: for every operation, a failure reported by the transport for that
operation's call comes back to the caller as exactly that error value,
with the returned value component left at the untouched zero holder — no
wrapping, no retry, no partial result. -/
theorem C3_transport_failure_propagated_unchanged :
    (∀ (pub : publicTransactionPool) (ctx : Ctx) (e : Err) (blockNr : String),
      pub.client ctx ("eth_getBlockTransactionCountByNumber") [Arg.str blockNr] =
        Except.error e →
      pub.GetBlockTransactionCountByNumber ctx blockNr = (none, some e)) ∧
    (∀ (pub : publicTransactionPool) (ctx : Ctx) (e : Err) (blockHash : List Nat),
      pub.client ctx ("eth_getBlockTransactionCountByHash") [Arg.hash blockHash] =
        Except.error e →
      pub.GetBlockTransactionCountByHash ctx blockHash = (none, some e)) ∧
    (∀ (pub : publicTransactionPool) (ctx : Ctx) (e : Err) (blockNr : String) (index : Nat),
      pub.client ctx ("eth_getTransactionByBlockNumberAndIndex")
        [Arg.str blockNr, Arg.uint index] = Except.error e →
      pub.GetTransactionByBlockNumberAndIndex ctx blockNr index = (none, some e)) ∧
    (∀ (pub : publicTransactionPool) (ctx : Ctx) (e : Err) (blockHash : List Nat) (index : Nat),
      pub.client ctx ("eth_getTransactionByBlockNumberAndIndex")
        [Arg.hash blockHash, Arg.uint index] = Except.error e →
      pub.GetTransactionByBlockHashAndIndex ctx blockHash index = (none, some e)) ∧
    (∀ (pub : publicTransactionPool) (ctx : Ctx) (e : Err) (blockNr : String) (index : Nat),
      pub.client ctx ("eth_getRawTransactionByBlockNumberAndIndex")
        [Arg.str blockNr, Arg.uint index] = Except.error e →
      pub.GetRawTransactionByBlockNumberAndIndex ctx blockNr index = (none, some e)) ∧
    (∀ (pub : publicTransactionPool) (ctx : Ctx) (e : Err) (blockHash : List Nat) (index : Nat),
      pub.client ctx ("eth_getRawTransactionByBlockHashAndIndex")
        [Arg.hash blockHash, Arg.uint index] = Except.error e →
      pub.GetRawTransactionByBlockHashAndIndex ctx blockHash index = (none, some e)) ∧
    (∀ (pub : publicTransactionPool) (ctx : Ctx) (e : Err) (address : List Nat) (blockNr : String),
      pub.client ctx ("eth_getTransactionCount")
        [Arg.addr address, Arg.str blockNr] = Except.error e →
      pub.GetTransactionCount ctx address blockNr = (none, some e)) ∧
    (∀ (pub : publicTransactionPool) (ctx : Ctx) (e : Err) (hash : List Nat),
      pub.client ctx ("eth_getTransactionByHash") [Arg.hash hash] = Except.error e →
      pub.GetTransactionByHash ctx hash = (none, some e)) ∧
    (∀ (pub : publicTransactionPool) (ctx : Ctx) (e : Err) (hash : List Nat),
      pub.client ctx ("eth_getRawTransactionByHash") [Arg.hash hash] = Except.error e →
      pub.GetRawTransactionByHash ctx hash = (none, some e)) ∧
    (∀ (pub : publicTransactionPool) (ctx : Ctx) (e : Err) (hash : List Nat),
      pub.client ctx ("eth_getTransactionReceipt") [Arg.hash hash] = Except.error e →
      pub.GetTransactionReceipt ctx hash = (none, some e)) ∧
    (∀ (pub : publicTransactionPool) (ctx : Ctx) (e : Err) (args : SendTxArgs),
      pub.client ctx ("eth_sendTransaction") [Arg.sendTx args] = Except.error e →
      pub.SendTransaction ctx args = (hashZero, some e)) ∧
    (∀ (pub : publicTransactionPool) (ctx : Ctx) (e : Err) (encodedTx : List Nat),
      pub.client ctx ("eth_sendRawTransaction") [Arg.bytes encodedTx] = Except.error e →
      pub.SendRawTransaction ctx encodedTx = (hashZero, some e)) ∧
    (∀ (pub : publicTransactionPool) (ctx : Ctx) (e : Err) (addr : List Nat) (data : List Nat),
      pub.client ctx ("eth_sign") [Arg.addr addr, Arg.bytes data] = Except.error e →
      pub.Sign ctx addr data = (none, some e)) ∧
    (∀ (pub : publicTransactionPool) (ctx : Ctx) (e : Err) (sendArgs : SendTxArgs)
        (gasPrice gasLimit : Nat),
      pub.client ctx ("eth_resend")
        [Arg.sendTx sendArgs, Arg.big gasPrice, Arg.big gasLimit] = Except.error e →
      pub.Resend ctx sendArgs gasPrice gasLimit = (hashZero, some e)) ∧
    (∀ (pub : publicTransactionPool) (ctx : Ctx) (e : Err) (args : SendTxArgs),
      pub.client ctx ("eth_signTransaction") [Arg.sendTx args] = Except.error e →
      pub.SignTransaction ctx args = (none, some e)) ∧
    (∀ (pub : publicTransactionPool) (ctx : Ctx) (e : Err) (hash : List Nat),
      pub.client ctx ("eth_getRawTransactionByHash") [Arg.hash hash] = Except.error e →
      pub.GetRawTransaction ctx hash = (none, some e)) ∧
    (∀ (pub : publicTransactionPool) (ctx : Ctx) (e : Err),
      pub.client ctx ("eth_pendingTransactions") [] = Except.error e →
      pub.PendingTransactions ctx = (none, some e)) :=
  ⟨fun _ _ _ _ h => run_rpcOp_fail _ _ h,
   fun _ _ _ _ h => run_rpcOp_fail _ _ h,
   fun _ _ _ _ _ h => run_rpcOp_fail _ _ h,
   fun _ _ _ _ _ h => run_rpcOp_fail _ _ h,
   fun _ _ _ _ _ h => run_rpcOp_fail _ _ h,
   fun _ _ _ _ _ h => run_rpcOp_fail _ _ h,
   fun _ _ _ _ _ h => run_rpcOp_fail _ _ h,
   fun _ _ _ _ h => run_rpcOp_fail _ _ h,
   fun _ _ _ _ h => run_rpcOp_fail _ _ h,
   fun _ _ _ _ h => run_rpcOp_fail _ _ h,
   fun _ _ _ _ h => run_rpcOp_fail _ _ h,
   fun _ _ _ _ h => run_rpcOp_fail _ _ h,
   fun _ _ _ _ _ h => run_rpcOp_fail _ _ h,
   fun _ _ _ _ _ _ h => run_rpcOp_fail _ _ h,
   fun _ _ _ _ h => run_rpcOp_fail _ _ h,
   fun _ _ _ _ h => run_rpcOp_fail _ _ h,
   fun _ _ _ h => run_rpcOp_fail _ _ h⟩

/-- C3 witness: the always-failing stub (a JSON-RPC locked-account error)
makes every operation surface exactly that error with its zero holder; in
particular `Sign` surfaces it with no signature bytes. -/
theorem C3_transport_failure_propagated_unchanged_w :
    pubFail.GetBlockTransactionCountByNumber 0 ("latest") = (none, some eStub) ∧
    pubFail.GetBlockTransactionCountByHash 0 hashZero = (none, some eStub) ∧
    pubFail.GetTransactionByBlockNumberAndIndex 0 ("latest") 0 = (none, some eStub) ∧
    pubFail.GetTransactionByBlockHashAndIndex 0 hashZero 0 = (none, some eStub) ∧
    pubFail.GetRawTransactionByBlockNumberAndIndex 0 ("latest") 0 = (none, some eStub) ∧
    pubFail.GetRawTransactionByBlockHashAndIndex 0 hashZero 0 = (none, some eStub) ∧
    pubFail.GetTransactionCount 0 (List.replicate 20 1) ("latest") = (none, some eStub) ∧
    pubFail.GetTransactionByHash 0 hashZero = (none, some eStub) ∧
    pubFail.GetRawTransactionByHash 0 hashZero = (none, some eStub) ∧
    pubFail.GetTransactionReceipt 0 hashZero = (none, some eStub) ∧
    pubFail.SendTransaction 0 stubTxArgs = (hashZero, some eStub) ∧
    pubFail.SendRawTransaction 0 [1, 2, 3] = (hashZero, some eStub) ∧
    pubFail.Sign 0 (List.replicate 20 1) [104, 105] = (none, some eStub) ∧
    pubFail.Resend 0 stubTxArgs 2 30000 = (hashZero, some eStub) ∧
    pubFail.SignTransaction 0 stubTxArgs = (none, some eStub) ∧
    pubFail.GetRawTransaction 0 hashZero = (none, some eStub) ∧
    pubFail.PendingTransactions 0 = (none, some eStub) := by
  obtain ⟨h1, h2, h3, h4, h5, h6, h7, h8, h9, h10, h11, h12, h13, h14, h15, h16, h17⟩ :=
    C3_transport_failure_propagated_unchanged
  exact ⟨h1 pubFail 0 eStub ("latest") rfl,
    h2 pubFail 0 eStub hashZero rfl,
    h3 pubFail 0 eStub ("latest") 0 rfl,
    h4 pubFail 0 eStub hashZero 0 rfl,
    h5 pubFail 0 eStub ("latest") 0 rfl,
    h6 pubFail 0 eStub hashZero 0 rfl,
    h7 pubFail 0 eStub (List.replicate 20 1) ("latest") rfl,
    h8 pubFail 0 eStub hashZero rfl,
    h9 pubFail 0 eStub hashZero rfl,
    h10 pubFail 0 eStub hashZero rfl,
    h11 pubFail 0 eStub stubTxArgs rfl,
    h12 pubFail 0 eStub [1, 2, 3] rfl,
    h13 pubFail 0 eStub (List.replicate 20 1) [104, 105] rfl,
    h14 pubFail 0 eStub stubTxArgs 2 30000 rfl,
    h15 pubFail 0 eStub stubTxArgs rfl,
    h16 pubFail 0 eStub hashZero rfl,
    h17 pubFail 0 eStub rfl⟩

/-- C10: whenever one of the pointer- or slice-resulted operations named
in the claim finishes with a non-nil error, its returned value is nil; the
value-typed operations (hash results and the receipt map) come back with
their untouched zero holder next to the error. -/
theorem C10_error_implies_nil_value :
    (∀ (pub : publicTransactionPool) (ctx : Ctx) (blockNr : String) (e : Err),
      (pub.GetBlockTransactionCountByNumber ctx blockNr).2 = some e →
      (pub.GetBlockTransactionCountByNumber ctx blockNr).1 = none) ∧
    (∀ (pub : publicTransactionPool) (ctx : Ctx) (blockHash : List Nat) (e : Err),
      (pub.GetBlockTransactionCountByHash ctx blockHash).2 = some e →
      (pub.GetBlockTransactionCountByHash ctx blockHash).1 = none) ∧
    (∀ (pub : publicTransactionPool) (ctx : Ctx) (blockNr : String) (index : Nat) (e : Err),
      (pub.GetTransactionByBlockNumberAndIndex ctx blockNr index).2 = some e →
      (pub.GetTransactionByBlockNumberAndIndex ctx blockNr index).1 = none) ∧
    (∀ (pub : publicTransactionPool) (ctx : Ctx) (blockHash : List Nat) (index : Nat) (e : Err),
      (pub.GetTransactionByBlockHashAndIndex ctx blockHash index).2 = some e →
      (pub.GetTransactionByBlockHashAndIndex ctx blockHash index).1 = none) ∧
    (∀ (pub : publicTransactionPool) (ctx : Ctx) (address : List Nat) (blockNr : String) (e : Err),
      (pub.GetTransactionCount ctx address blockNr).2 = some e →
      (pub.GetTransactionCount ctx address blockNr).1 = none) ∧
    (∀ (pub : publicTransactionPool) (ctx : Ctx) (hash : List Nat) (e : Err),
      (pub.GetTransactionByHash ctx hash).2 = some e →
      (pub.GetTransactionByHash ctx hash).1 = none) ∧
    (∀ (pub : publicTransactionPool) (ctx : Ctx) (addr : List Nat) (data : List Nat) (e : Err),
      (pub.Sign ctx addr data).2 = some e →
      (pub.Sign ctx addr data).1 = none) ∧
    (∀ (pub : publicTransactionPool) (ctx : Ctx) (args : SendTxArgs) (e : Err),
      (pub.SignTransaction ctx args).2 = some e →
      (pub.SignTransaction ctx args).1 = none) ∧
    (∀ (pub : publicTransactionPool) (ctx : Ctx) (args : SendTxArgs) (e : Err),
      (pub.SendTransaction ctx args).2 = some e →
      (pub.SendTransaction ctx args).1 = hashZero) ∧
    (∀ (pub : publicTransactionPool) (ctx : Ctx) (encodedTx : List Nat) (e : Err),
      (pub.SendRawTransaction ctx encodedTx).2 = some e →
      (pub.SendRawTransaction ctx encodedTx).1 = hashZero) ∧
    (∀ (pub : publicTransactionPool) (ctx : Ctx) (sendArgs : SendTxArgs)
        (gasPrice gasLimit : Nat) (e : Err),
      (pub.Resend ctx sendArgs gasPrice gasLimit).2 = some e →
      (pub.Resend ctx sendArgs gasPrice gasLimit).1 = hashZero) ∧
    (∀ (pub : publicTransactionPool) (ctx : Ctx) (hash : List Nat) (e : Err),
      (pub.GetTransactionReceipt ctx hash).2 = some e →
      (pub.GetTransactionReceipt ctx hash).1 = none) :=
  ⟨fun pub ctx _ e h => run_rpcOp_err_implies_holder pub.client ctx _ _ _ _ e h,
   fun pub ctx _ e h => run_rpcOp_err_implies_holder pub.client ctx _ _ _ _ e h,
   fun pub ctx _ _ e h => run_rpcOp_err_implies_holder pub.client ctx _ _ _ _ e h,
   fun pub ctx _ _ e h => run_rpcOp_err_implies_holder pub.client ctx _ _ _ _ e h,
   fun pub ctx _ _ e h => run_rpcOp_err_implies_holder pub.client ctx _ _ _ _ e h,
   fun pub ctx _ e h => run_rpcOp_err_implies_holder pub.client ctx _ _ _ _ e h,
   fun pub ctx _ _ e h => run_rpcOp_err_implies_holder pub.client ctx _ _ _ _ e h,
   fun pub ctx _ e h => run_rpcOp_err_implies_holder pub.client ctx _ _ _ _ e h,
   fun pub ctx _ e h => run_rpcOp_err_implies_holder pub.client ctx _ _ _ _ e h,
   fun pub ctx _ e h => run_rpcOp_err_implies_holder pub.client ctx _ _ _ _ e h,
   fun pub ctx _ _ _ e h => run_rpcOp_err_implies_holder pub.client ctx _ _ _ _ e h,
   fun pub ctx _ e h => run_rpcOp_err_implies_holder pub.client ctx _ _ _ _ e h⟩

/-- C10 witness: over the always-failing stub every listed operation
reports the stub error, and its value component is indeed the nil (or
zero-holder) value. -/
theorem C10_error_implies_nil_value_w :
    (pubFail.GetBlockTransactionCountByNumber 0 ("latest")).1 = none ∧
    (pubFail.GetBlockTransactionCountByHash 0 hashZero).1 = none ∧
    (pubFail.GetTransactionByBlockNumberAndIndex 0 ("latest") 0).1 = none ∧
    (pubFail.GetTransactionByBlockHashAndIndex 0 hashZero 0).1 = none ∧
    (pubFail.GetTransactionCount 0 (List.replicate 20 1) ("latest")).1 = none ∧
    (pubFail.GetTransactionByHash 0 hashZero).1 = none ∧
    (pubFail.Sign 0 (List.replicate 20 1) [104, 105]).1 = none ∧
    (pubFail.SignTransaction 0 stubTxArgs).1 = none ∧
    (pubFail.SendTransaction 0 stubTxArgs).1 = hashZero ∧
    (pubFail.SendRawTransaction 0 [1, 2, 3]).1 = hashZero ∧
    (pubFail.Resend 0 stubTxArgs 2 30000).1 = hashZero ∧
    (pubFail.GetTransactionReceipt 0 hashZero).1 = none := by
  obtain ⟨g1, g2, g3, g4, g5, g6, g7, g8, g9, g10, g11, g12⟩ :=
    C10_error_implies_nil_value
  exact ⟨g1 pubFail 0 ("latest") eStub rfl,
    g2 pubFail 0 hashZero eStub rfl,
    g3 pubFail 0 ("latest") 0 eStub rfl,
    g4 pubFail 0 hashZero 0 eStub rfl,
    g5 pubFail 0 (List.replicate 20 1) ("latest") eStub rfl,
    g6 pubFail 0 hashZero eStub rfl,
    g7 pubFail 0 (List.replicate 20 1) [104, 105] eStub rfl,
    g8 pubFail 0 stubTxArgs eStub rfl,
    g9 pubFail 0 stubTxArgs eStub rfl,
    g10 pubFail 0 [1, 2, 3] eStub rfl,
    g11 pubFail 0 stubTxArgs 2 30000 eStub rfl,
    g12 pubFail 0 hashZero eStub rfl⟩
